import Mathlib

/-!
Verification of the sales-tracker analytics core (`src/app.py`).

Shallow embedding notes.

* A pandas `DataFrame` of transactions is modelled as a `List Record`
  (row order = insertion order).
* Calendar dates (Python `datetime.date` / pandas timestamps normalised
  to dates) are modelled abstractly by `Date`: `ord` is the linear day
  number (so date comparison is `ord` comparison and "minus n days" is
  `ord - n`), `year`/`month` are the calendar components read by
  `.dt.month` / `.dt.to_period('M')`, and `week` is the identifier
  produced by `.dt.to_period('W')`.
* Decimal amounts are modelled by `ℚ` (exact arithmetic; the Python code
  never rounds).
* `datetime.now()` — the evaluation instant used by
  `calculate_business_metrics` — is passed in explicitly as a `today : Date`
  parameter (the source calls `datetime.now()` twice, once for the
  trailing-window computations and once for the month comparison, but
  both denote the same instant).
* pandas `groupby` sorts the group keys ascending and `Series.idxmax`
  returns the first index attaining the maximum; both behaviours are
  reproduced (`insertionSort` on the deduplicated keys, `find?` of the
  first maximiser).
* A Python call that raises (the unbound-variable path of
  `calculate_analytics` on an unknown period) is modelled by `none`.
-/

/-- Abstract calendar date: `ord` is the day number on the time line,
`year`/`month`/`week` the calendar components extracted by pandas
accessors. -/
structure Date where
  ord : Int
  year : Int
  month : Nat
  week : Int
deriving DecidableEq

/-- One sales transaction row, with the derived `total_amount` column. -/
structure Record where
  date : Date
  product_name : String
  price : ℚ
  quantity : Nat
  seller : String
  total_amount : ℚ
deriving DecidableEq

/-- `add_transaction` (src/app.py:34): appends one row whose
`total_amount` is `price * quantity`. -/
def add_transaction (store : List Record) (date : Date) (product_name : String)
    (price : ℚ) (quantity : Nat) (seller : String) : List Record :=
  store ++ [{ date := date, product_name := product_name, price := price,
              quantity := quantity, seller := seller,
              total_amount := price * (quantity : ℚ) }]

/-- Store states reachable from the empty store by appends: the session
store starts empty and is mutated only by `add_transaction`. -/
inductive ReachableStore : List Record → Prop
  | empty : ReachableStore []
  | step (s : List Record) (date : Date) (product_name : String) (price : ℚ)
      (quantity : Nat) (seller : String) :
      ReachableStore s →
      ReachableStore (add_transaction s date product_name price quantity seller)

/-- `get_filtered_data` (src/app.py:47): sequential date-range and seller
filters.  The seller test is Python's `if seller and seller != "All"`, so
`None` and the falsy empty string both pass through, as does the
sentinel `"All"`. -/
def get_filtered_data (data : List Record) (start_date : Option Date)
    (end_date : Option Date) (seller : Option String) : List Record :=
  if data = [] then data
  else
    let d1 := match start_date with
      | none => data
      | some s => data.filter (fun r => decide (s.ord ≤ r.date.ord))
    let d2 := match end_date with
      | none => d1
      | some e => d1.filter (fun r => decide (r.date.ord ≤ e.ord))
    match seller with
    | none => d2
    | some s =>
        if s = "" then d2
        else if s = "All" then d2
        else d2.filter (fun r => decide (r.seller = s))

/-- Sum of `f` over the rows of `data` whose group key is `k`
(the value of one cell of a pandas `groupby(...).agg('sum')` result). -/
def keySum {κ β : Type} [DecidableEq κ] [AddCommMonoid β]
    (data : List Record) (keyOf : Record → κ) (f : Record → β) (k : κ) : β :=
  ((data.filter (fun r => decide (keyOf r = k))).map f).sum

/-- Count of the rows of `data` whose group key is `k`. -/
def keyCount {κ : Type} [DecidableEq κ]
    (data : List Record) (keyOf : Record → κ) (k : κ) : Nat :=
  (data.filter (fun r => decide (keyOf r = k))).length

/-- `Series.idxmax`: the first index (in the series' key order) whose
value attains the maximum. -/
def idxmax {κ β : Type} [LinearOrder β] (K : List κ) (f : κ → β) : Option κ :=
  K.find? (fun k => K.all (fun j => decide (f j ≤ f k)))

/-- Grouping key produced by `calculate_analytics` for each period. -/
inductive BKey where
  | day (d : Date)
  | week (w : Int)
  | month (y : Int) (m : Nat)
deriving DecidableEq

/-- Comparison used to sort group keys ascending, matching pandas
`groupby`'s sorted key order (keys of one `calculate_analytics` call all
use the same constructor). -/
def bkeyLe : BKey → BKey → Prop
  | .day d1, .day d2 => d1.ord ≤ d2.ord
  | .week w1, .week w2 => w1 ≤ w2
  | .month y1 m1, .month y2 m2 => y1 < y2 ∨ (y1 = y2 ∧ m1 ≤ m2)
  | .day _, _ => True
  | .week _, .day _ => False
  | .week _, .month _ _ => True
  | .month _ _, _ => False

instance : DecidableRel bkeyLe := by
  intro a b
  cases a <;> cases b <;> simp only [bkeyLe] <;> infer_instance

/-- One row of a `calculate_analytics` result: the group key with the
aggregated revenue, quantity and transaction count. -/
structure Bucket where
  key : BKey
  total_amount : ℚ
  quantity : Nat
  transaction_count : Nat
deriving DecidableEq

/-- The sorted, deduplicated group keys of `data` under `keyOf`
(pandas `groupby` iterates group keys sorted ascending). -/
def bkeys (data : List Record) (keyOf : Record → BKey) : List BKey :=
  ((data.map keyOf).dedup).insertionSort bkeyLe

/-- groupby-aggregate: one `Bucket` per distinct key, keys ascending. -/
def groupAgg (data : List Record) (keyOf : Record → BKey) : List Bucket :=
  (bkeys data keyOf).map (fun k =>
    { key := k,
      total_amount := keySum data keyOf Record.total_amount k,
      quantity := keySum data keyOf Record.quantity k,
      transaction_count := keyCount data keyOf k })

/-- `calculate_analytics` (src/app.py:66).  Empty input returns an empty
frame for any period; otherwise only `daily` / `weekly` / `monthly`
assign `grouped`, and any other period reaches `grouped.reset_index()`
with `grouped` unbound, raising — modelled by `none`. -/
def calculate_analytics (data : List Record) (period : String) : Option (List Bucket) :=
  if data = [] then some []
  else if period = "daily" then some (groupAgg data (fun r => BKey.day r.date))
  else if period = "weekly" then some (groupAgg data (fun r => BKey.week r.date.week))
  else if period = "monthly" then
    some (groupAgg data (fun r => BKey.month r.date.year r.date.month))
  else none

/-- Sorted distinct seller names of `data` (keys of `groupby('seller')`). -/
def sellerKeys (data : List Record) : List String :=
  ((data.map Record.seller).dedup).insertionSort (· ≤ ·)

/-- Revenue of one seller: `groupby('seller')['total_amount'].sum()[s]`. -/
def sellerRevenue (data : List Record) (s : String) : ℚ :=
  keySum data Record.seller Record.total_amount s

/-- Sorted distinct product names of `data`. -/
def productKeys (data : List Record) : List String :=
  ((data.map Record.product_name).dedup).insertionSort (· ≤ ·)

/-- Units sold of one product: `groupby('product_name')['quantity'].sum()[p]`. -/
def productQty (data : List Record) (p : String) : Nat :=
  keySum data Record.product_name Record.quantity p

/-- Rows with `date >= today - 7 days` (src/app.py:125 — note: no upper
bound, so future-dated rows qualify too). -/
def recent_records (today : Date) (data : List Record) : List Record :=
  data.filter (fun r => decide (today.ord - 7 ≤ r.date.ord))

/-- Revenue of `recent_records` (`this_week_revenue`, src/app.py:131). -/
def this_week_revenue (today : Date) (data : List Record) : ℚ :=
  ((recent_records today data).map Record.total_amount).sum

/-- Rows with `today - 14 <= date < today - 7` (src/app.py:130). -/
def last_week_records (today : Date) (data : List Record) : List Record :=
  data.filter (fun r =>
    decide (today.ord - 14 ≤ r.date.ord) && decide (r.date.ord < today.ord - 7))

/-- Revenue of `last_week_records` (`last_week_revenue`, src/app.py:132). -/
def last_week_revenue (today : Date) (data : List Record) : ℚ :=
  ((last_week_records today data).map Record.total_amount).sum

/-- Rows whose month-of-year equals today's month number, any year
(src/app.py:136). -/
def current_month_records (today : Date) (data : List Record) : List Record :=
  data.filter (fun r => decide (r.date.month = today.month))

/-- The fixed-shape result of `calculate_business_metrics`. -/
structure Metrics where
  total_revenue : ℚ
  total_transactions : Nat
  avg_order_value : ℚ
  total_quantity : Nat
  top_seller : String
  top_seller_revenue : ℚ
  top_product : String
  top_product_qty : Nat
  daily_avg : ℚ
  growth_rate : ℚ
  monthly_revenue : ℚ
  monthly_transactions : Nat
deriving DecidableEq

/-- Body of `calculate_business_metrics` on non-empty data (split out so
theorems can name the returned record; `Series.mean()` is sum over
count, `Series.max()` is the maximum of the grouped sums). -/
def metricsOf (today : Date) (data : List Record) : Metrics :=
  let total_revenue := (data.map Record.total_amount).sum
  let recent := recent_records today data
  let tw := this_week_revenue today data
  let lw := last_week_revenue today data
  let cur_month := current_month_records today data
  { total_revenue := total_revenue,
    total_transactions := data.length,
    avg_order_value := total_revenue / (data.length : ℚ),
    total_quantity := (data.map Record.quantity).sum,
    top_seller := (idxmax (sellerKeys data) (sellerRevenue data)).getD "N/A",
    top_seller_revenue := (((sellerKeys data).map (sellerRevenue data)).max?).getD 0,
    top_product := (idxmax (productKeys data) (productQty data)).getD "N/A",
    top_product_qty := (((productKeys data).map (productQty data)).max?).getD 0,
    daily_avg := if recent = [] then 0 else (recent.map Record.total_amount).sum / 7,
    growth_rate := if 0 < lw then (tw - lw) / lw * 100 else 0,
    monthly_revenue := (cur_month.map Record.total_amount).sum,
    monthly_transactions := cur_month.length }

/-- `calculate_business_metrics` (src/app.py:100), with the evaluation
instant `datetime.now()` passed in as `today`.  Empty input returns `{}`
(modelled `none`). -/
def calculate_business_metrics (today : Date) (data : List Record) : Option Metrics :=
  if data = [] then none else some (metricsOf today data)

/-! ## Specification-side definitions

These definitions follow the specification's words (not the source) and
exist only to be compared with the source-derived definitions above. -/

/-- Spec reading of the filter predicate: a record passes iff
`start_date` is unset or `record.date >= start_date`, `end_date` is
unset or `record.date <= end_date`, and `seller` is unset or the
sentinel `"All"` or exactly equal to the record's seller. -/
def spec_filter_pass (start_date end_date : Option Date) (seller : Option String)
    (r : Record) : Prop :=
  (match start_date with | none => True | some d => d.ord ≤ r.date.ord) ∧
  (match end_date with | none => True | some d => r.date.ord ≤ d.ord) ∧
  (match seller with | none => True | some s => s = "All" ∨ r.seller = s)

/-- Spec reading of the trailing window: revenue of records whose date
falls within the trailing 7 days ending today, i.e.
`today - 7 ≤ date ≤ today` (bounded above by today). -/
def spec_trailing_window_sum (today : Date) (data : List Record) : ℚ :=
  ((data.filter (fun r =>
      decide (today.ord - 7 ≤ r.date.ord) && decide (r.date.ord ≤ today.ord))).map
    Record.total_amount).sum

/-- Spec reading of the growth rate: percentage change of the
trailing-7-day revenue (spec window, bounded above by today) versus the
prior 7-day window, and 0 when the prior window's revenue is 0. -/
def spec_growth_rate (today : Date) (data : List Record) : ℚ :=
  let tw := spec_trailing_window_sum today data
  let lw := last_week_revenue today data
  if lw = 0 then 0 else (tw - lw) / lw * 100

/-! ## Sample data -/

/-- 2024-01-01 (day number 0 of the sample time line). -/
def d0101 : Date := ⟨0, 2024, 1, 1⟩

/-- 2024-01-08. -/
def d0108 : Date := ⟨7, 2024, 1, 2⟩

/-- A sample evaluation instant, 2024-01-15. -/
def t0 : Date := ⟨14, 2024, 1, 3⟩

/-- Scenario row 1: 2024-01-01, "Shirt", price 100, qty 2, seller "A". -/
def r1 : Record := ⟨d0101, "Shirt", 100, 2, "A", 200⟩

/-- Scenario row 2: 2024-01-01, "Saree", price 500, qty 1, seller "B". -/
def r2 : Record := ⟨d0101, "Saree", 500, 1, "B", 500⟩

/-- Scenario row 3: 2024-01-08, "Shirt", price 100, qty 1, seller "A". -/
def r3 : Record := ⟨d0108, "Shirt", 100, 1, "A", 100⟩

/-- A row dated 10 days after the sample instant `t0` (a future-dated
sale, as the date picker allows). -/
def rFuture : Record := ⟨⟨24, 2024, 1, 5⟩, "Future Shirt", 100, 1, "A", 100⟩

/-- A row dated 10 days before `t0` (inside the prior 7-day window). -/
def rPast : Record := ⟨⟨4, 2024, 1, 1⟩, "Past Shirt", 100, 1, "A", 100⟩

/-- A row whose seller is "X" (used against the empty-string seller
argument). -/
def rX : Record := ⟨d0101, "Shirt", 100, 1, "X", 100⟩

/-! ## Helper lemmas -/

theorem keySum_nil {κ β : Type} [DecidableEq κ] [AddCommMonoid β]
    (keyOf : Record → κ) (f : Record → β) (k : κ) :
    keySum [] keyOf f k = 0 := rfl

theorem keySum_cons {κ β : Type} [DecidableEq κ] [AddCommMonoid β]
    (a : Record) (l : List Record) (keyOf : Record → κ) (f : Record → β) (k : κ) :
    keySum (a :: l) keyOf f k = (if keyOf a = k then f a else 0) + keySum l keyOf f k := by
  by_cases h : keyOf a = k <;> simp [keySum, List.filter_cons, h]

theorem sum_map_add_distrib {κ β : Type} [AddCommMonoid β] (K : List κ) (g h : κ → β) :
    (K.map (fun k => g k + h k)).sum = (K.map g).sum + (K.map h).sum := by
  induction K with
  | nil => simp
  | cons a K ih =>
    simp only [List.map_cons, List.sum_cons, ih]
    abel

theorem sum_map_ite_of_not_mem {κ β : Type} [DecidableEq κ] [AddCommMonoid β]
    {c : κ} {v : β} (K : List κ) (hc : c ∉ K) :
    (K.map (fun k => if c = k then v else 0)).sum = 0 := by
  induction K with
  | nil => simp
  | cons a K ih =>
    simp only [List.mem_cons, not_or] at hc
    simp [hc.1, ih hc.2]

theorem sum_map_ite_of_mem {κ β : Type} [DecidableEq κ] [AddCommMonoid β]
    {c : κ} {v : β} (K : List κ) (hK : K.Nodup) (hc : c ∈ K) :
    (K.map (fun k => if c = k then v else 0)).sum = v := by
  induction K with
  | nil => cases hc
  | cons a K ih =>
    rcases List.mem_cons.1 hc with h | h
    · subst h
      simp [sum_map_ite_of_not_mem K (List.nodup_cons.1 hK).1]
    · have hne : c ≠ a := by
        rintro rfl
        exact (List.nodup_cons.1 hK).1 h
      simp [hne, ih (List.nodup_cons.1 hK).2 h]

theorem keySum_partition {κ β : Type} [DecidableEq κ] [AddCommMonoid β]
    (keyOf : Record → κ) (f : Record → β) (l : List Record) (K : List κ)
    (hK : K.Nodup) (hmem : ∀ x ∈ l, keyOf x ∈ K) :
    (K.map (fun k => keySum l keyOf f k)).sum = (l.map f).sum := by
  induction l with
  | nil =>
    simp only [keySum_nil, List.map_nil, List.sum_nil]
    induction K with
    | nil => simp
    | cons a K ih => simp [ih]
  | cons a l ih =>
    have hrec := ih (fun x hx => hmem x (List.mem_cons_of_mem a hx))
    calc (K.map (fun k => keySum (a :: l) keyOf f k)).sum
        = (K.map (fun k => (if keyOf a = k then f a else 0) + keySum l keyOf f k)).sum := by
          simp only [keySum_cons]
      _ = (K.map (fun k => if keyOf a = k then f a else 0)).sum
            + (K.map (fun k => keySum l keyOf f k)).sum := sum_map_add_distrib K _ _
      _ = f a + (l.map f).sum := by
          rw [sum_map_ite_of_mem K hK (hmem a (List.mem_cons_self a l)), hrec]
      _ = ((a :: l).map f).sum := by simp

theorem find?_sorted_le {κ : Type} [LinearOrder κ] {p : κ → Bool} {k : κ} :
    ∀ {K : List κ}, K.Sorted (· ≤ ·) → K.find? p = some k → ∀ j ∈ K, p j → k ≤ j := by
  intro K
  induction K with
  | nil =>
    intro _ h
    cases h
  | cons a K ih =>
    intro hs hf j hj hp
    cases hpa : p a with
    | false =>
      rw [List.find?_cons_of_neg _ (by simp [hpa])] at hf
      rcases List.mem_cons.1 hj with rfl | hj2
      · rw [hp] at hpa
        cases hpa
      · exact ih (List.sorted_cons.1 hs).2 hf j hj2 hp
    | true =>
      rw [List.find?_cons_of_pos _ hpa] at hf
      cases hf
      rcases List.mem_cons.1 hj with rfl | hj2
      · exact le_refl _
      · exact (List.sorted_cons.1 hs).1 j hj2

theorem idxmax_spec {κ β : Type} [LinearOrder κ] [LinearOrder β] {K : List κ}
    (f : κ → β) (hs : K.Sorted (· ≤ ·)) (hne : K ≠ []) :
    ∃ k, idxmax K f = some k ∧ k ∈ K ∧ (∀ j ∈ K, f j ≤ f k) ∧
      (∀ j ∈ K, f j = f k → k ≤ j) := by
  cases hm : K.argmax f with
  | none => exact absurd (List.argmax_eq_none.1 hm) hne
  | some m =>
    have hmmax : ∀ j ∈ K, f j ≤ f m := fun j hj =>
      List.le_of_mem_argmax hj (Option.mem_def.2 hm)
    have hsome : (K.find? (fun k => K.all (fun j => decide (f j ≤ f k)))).isSome := by
      refine List.find?_isSome.2 ⟨m, List.argmax_mem (Option.mem_def.2 hm), ?_⟩
      exact List.all_eq_true.2 fun j hj => decide_eq_true (hmmax j hj)
    obtain ⟨k, hk⟩ := Option.isSome_iff_exists.1 hsome
    have hkmem : k ∈ K := List.mem_of_find?_eq_some hk
    have hpk : (K.all (fun j => decide (f j ≤ f k))) = true :=
      List.find?_some (p := fun x => K.all (fun j => decide (f j ≤ f x))) hk
    have hkmax : ∀ j ∈ K, f j ≤ f k := fun j hj =>
      of_decide_eq_true (List.all_eq_true.1 hpk j hj)
    refine ⟨k, hk, hkmem, hkmax, ?_⟩
    intro j hj hfj
    refine find?_sorted_le hs hk j hj ?_
    refine List.all_eq_true.2 fun i hi => decide_eq_true ?_
    exact hfj ▸ hkmax i hi

theorem reachable_total_amount {s : List Record} (hs : ReachableStore s) :
    ∀ r ∈ s, r.total_amount = r.price * (r.quantity : ℚ) := by
  induction hs with
  | empty =>
    intro r hr
    cases hr
  | step s date product_name price quantity seller _ ih =>
    intro r hr
    rcases List.mem_append.1 hr with h | h
    · exact ih r h
    · rcases List.mem_singleton.1 h with rfl
      rfl

theorem calculate_business_metrics_eq {today : Date} {data : List Record}
    (hne : data ≠ []) :
    calculate_business_metrics today data = some (metricsOf today data) := by
  simp [calculate_business_metrics, hne]

/-! ## Claim theorems -/

/-- C1: for the three-record scenario, `calculate_business_metrics`
returns total_revenue 800, total_transactions 3, top_seller "B" with
top_seller_revenue 500; generally on non-empty data, total_revenue is
the sum of total_amount, total_transactions the record count,
avg_order_value the mean of total_amount, and total_quantity the sum of
quantity. -/
theorem C1_basic_metrics (data : List Record) (today : Date) (h : data ≠ []) :
    (∃ m, calculate_business_metrics today data = some m ∧
      m.total_revenue = (data.map Record.total_amount).sum ∧
      m.total_transactions = data.length ∧
      m.avg_order_value = (data.map Record.total_amount).sum / (data.length : ℚ) ∧
      m.total_quantity = (data.map Record.quantity).sum) ∧
    (calculate_business_metrics t0 [r1, r2, r3]).map (fun m =>
      (m.total_revenue, m.total_transactions, m.top_seller, m.top_seller_revenue)) =
      some (800, 3, "B", 500) := by
  constructor
  · exact ⟨metricsOf today data, calculate_business_metrics_eq h, rfl, rfl, rfl, rfl⟩
  · simp +decide [calculate_business_metrics, metricsOf, sellerKeys, sellerRevenue,
      productKeys, productQty, keySum, keyCount, idxmax, recent_records,
      this_week_revenue, last_week_revenue, last_week_records, current_month_records,
      List.insertionSort, List.orderedInsert, List.max?, List.find?,
      r1, r2, r3, d0101, d0108, t0]
    norm_num

/-- C1 witness: the general part instantiated at the scenario input. -/
theorem C1_basic_metrics_witness :
    ([r1, r2, r3] ≠ []) ∧
    ((∃ m, calculate_business_metrics t0 [r1, r2, r3] = some m ∧
      m.total_revenue = ([r1, r2, r3].map Record.total_amount).sum ∧
      m.total_transactions = [r1, r2, r3].length ∧
      m.avg_order_value = ([r1, r2, r3].map Record.total_amount).sum /
        (([r1, r2, r3] : List Record).length : ℚ) ∧
      m.total_quantity = ([r1, r2, r3].map Record.quantity).sum) ∧
    (calculate_business_metrics t0 [r1, r2, r3]).map (fun m =>
      (m.total_revenue, m.total_transactions, m.top_seller, m.top_seller_revenue)) =
      some (800, 3, "B", 500)) :=
  ⟨by decide, C1_basic_metrics [r1, r2, r3] t0 (by decide)⟩

/-- C3: every reachable store state satisfies the invariant
total_amount = price * quantity row-wise, hence the two sums agree on
any record set drawn from the store. -/
theorem C3_total_amount_invariant (s : List Record) (hs : ReachableStore s)
    (l : List Record) (hsub : ∀ r ∈ l, r ∈ s) (_hne : l ≠ []) :
    (l.map Record.total_amount).sum =
      (l.map (fun r => r.price * (r.quantity : ℚ))).sum := by
  have hcong : ∀ r ∈ l, Record.total_amount r =
      (fun r : Record => r.price * (r.quantity : ℚ)) r :=
    fun r hr => reachable_total_amount hs r (hsub r hr)
  rw [List.map_congr_left hcong]

/-- A store built by two appends, used as the C3 witness state. -/
def store2 : List Record :=
  add_transaction (add_transaction [] d0101 "Shirt" 100 2 "A") d0101 "Saree" 500 1 "B"

/-- C3 witness: the invariant applied to a concrete two-append store. -/
theorem C3_total_amount_invariant_witness :
    ReachableStore store2 ∧ store2 ≠ [] ∧
    (store2.map Record.total_amount).sum =
      (store2.map (fun r => r.price * (r.quantity : ℚ))).sum :=
  ⟨ReachableStore.step _ _ _ _ _ _ (ReachableStore.step _ _ _ _ _ _ ReachableStore.empty),
   by decide,
   C3_total_amount_invariant store2
     (ReachableStore.step _ _ _ _ _ _ (ReachableStore.step _ _ _ _ _ _ ReachableStore.empty))
     store2 (fun r hr => hr) (by decide)⟩

/-- C7: on the empty record set, `calculate_business_metrics` returns
the empty marker and `calculate_analytics` returns an empty frame for
every period, neither raising. -/
theorem C7_empty_input :
    (∀ today : Date, calculate_business_metrics today [] = none) ∧
    (∀ period : String, calculate_analytics [] period = some []) := by
  constructor
  · intro today
    simp [calculate_business_metrics]
  · intro period
    simp [calculate_analytics]

/-- C8: re-summing the per-bucket revenue of the daily aggregation
recovers the total revenue of the input — no record is double-counted
or dropped. -/
theorem C8_daily_buckets_partition (data : List Record) :
    (calculate_analytics data "daily").map (fun bs => (bs.map Bucket.total_amount).sum) =
      some ((data.map Record.total_amount).sum) := by
  by_cases h : data = []
  · subst h
    simp [calculate_analytics]
  · have hkey : ∀ x ∈ data, (fun r : Record => BKey.day r.date) x ∈
        bkeys data (fun r => BKey.day r.date) := by
      intro x hx
      exact ((List.perm_insertionSort bkeyLe _).mem_iff).2
        (List.mem_dedup.2 (List.mem_map_of_mem _ hx))
    have hnodup : (bkeys data (fun r => BKey.day r.date)).Nodup :=
      ((List.perm_insertionSort bkeyLe _).nodup_iff).2 (List.nodup_dedup _)
    have hca : calculate_analytics data "daily" =
        some (groupAgg data (fun r => BKey.day r.date)) := by
      simp [calculate_analytics, h]
    rw [hca]
    have hmm : ((groupAgg data (fun r => BKey.day r.date)).map Bucket.total_amount) =
        (bkeys data (fun r => BKey.day r.date)).map
          (fun k => keySum data (fun r => BKey.day r.date) Record.total_amount k) := by
      simp [groupAgg, List.map_map]
    simp only [Option.map_some', Option.some.injEq, hmm]
    exact keySum_partition _ _ data _ hnodup hkey

/-- C10: `calculate_analytics` is total only over the three known
periods: empty data gives an empty frame for any period, the three known
periods always return a value, and any other period on non-empty data
hits the unbound `grouped` variable (modelled `none`). -/
theorem C10_analytics_period_totality (data : List Record) (period : String) :
    (calculate_analytics [] period = some []) ∧
    (data ≠ [] → period ≠ "daily" → period ≠ "weekly" → period ≠ "monthly" →
      calculate_analytics data period = none) ∧
    ((calculate_analytics data "daily").isSome ∧
      (calculate_analytics data "weekly").isSome ∧
      (calculate_analytics data "monthly").isSome) := by
  refine ⟨by simp [calculate_analytics], ?_, ?_⟩
  · intro h h1 h2 h3
    simp [calculate_analytics, h, h1, h2, h3]
  · by_cases h : data = [] <;> simp [calculate_analytics, h]

/-- C10 witness: the unknown period "yearly" on a one-record set. -/
theorem C10_analytics_period_totality_witness :
    ([r1] ≠ []) ∧ ("yearly" ≠ "daily") ∧ ("yearly" ≠ "weekly") ∧
    ("yearly" ≠ "monthly") ∧ calculate_analytics [r1] "yearly" = none :=
  ⟨by decide, by decide, by decide, by decide,
   (C10_analytics_period_totality [r1] "yearly").2.1
     (by decide) (by decide) (by decide) (by decide)⟩

/-- Row dated January 2023 (same month number as `t0`, previous year). -/
def rJan2023 : Record := ⟨⟨-365, 2023, 1, -52⟩, "Old Shirt", 100, 1, "A", 100⟩

/-- Row dated at the instant `t0` itself, revenue 150. -/
def rNow : Record := ⟨t0, "Shirt", 150, 1, "A", 150⟩

/-- C2 (amended): a record is kept by `get_filtered_data` iff it is in
the input, each set date bound holds inclusively, and the seller
argument is unset, the empty string, the sentinel "All", or exactly the
record's seller; no argument combination is an error. -/
theorem C2_filter_membership (data : List Record) (sd ed : Option Date)
    (sel : Option String) (r : Record) :
    r ∈ get_filtered_data data sd ed sel ↔
      r ∈ data ∧
      (match sd with | none => True | some d => d.ord ≤ r.date.ord) ∧
      (match ed with | none => True | some d => r.date.ord ≤ d.ord) ∧
      (match sel with | none => True | some s => s = "" ∨ s = "All" ∨ r.seller = s) := by
  by_cases hd : data = []
  · subst hd
    simp [get_filtered_data]
  · unfold get_filtered_data
    rw [if_neg hd]
    rcases sel with _ | s
    · cases sd <;> cases ed <;>
        (simp [List.mem_filter, and_assoc, decide_eq_true_eq]; try tauto)
    · by_cases hs0 : s = ""
      · subst hs0
        cases sd <;> cases ed <;>
          (simp [List.mem_filter, and_assoc, decide_eq_true_eq]; try tauto)
      · by_cases hsA : s = "All"
        · subst hsA
          cases sd <;> cases ed <;>
            (simp [List.mem_filter, and_assoc, decide_eq_true_eq]; try tauto)
        · cases sd <;> cases ed <;>
            (simp [List.mem_filter, and_assoc, decide_eq_true_eq, hs0, hsA]; try tauto)

/-- C2 counterexample: with the empty-string seller argument the code
passes a record with seller "X" through, while the claim's predicate
(seller set and not "All" means exact match) rejects it. -/
theorem C2_counterexample_empty_seller :
    rX ∈ get_filtered_data [rX] none none (some "") ∧
    ¬ spec_filter_pass none none (some "") rX := by
  constructor
  · simp +decide [get_filtered_data, rX]
  · simp +decide [spec_filter_pass, rX]

/-- C4 (amended): `daily_avg` is the revenue of records dated on or
after `today - 7` — an 8-day inclusive lookback with no upper bound, so
future-dated records are included — divided by 7 regardless of how many
of those days have records. -/
theorem C4_daily_avg_runrate (data : List Record) (today : Date) (h : data ≠ []) :
    ∃ m, calculate_business_metrics today data = some m ∧
      m.daily_avg = this_week_revenue today data / 7 := by
  refine ⟨metricsOf today data, calculate_business_metrics_eq h, ?_⟩
  show (if recent_records today data = [] then (0 : ℚ)
      else ((recent_records today data).map Record.total_amount).sum / 7) =
    this_week_revenue today data / 7
  by_cases hr : recent_records today data = []
  · rw [if_pos hr]
    simp [this_week_revenue, hr]
  · rw [if_neg hr]
    rfl

/-- C4 witness: the amended statement at the scenario input. -/
theorem C4_daily_avg_runrate_witness :
    ([r1, r2, r3] ≠ []) ∧
    (∃ m, calculate_business_metrics t0 [r1, r2, r3] = some m ∧
      m.daily_avg = this_week_revenue t0 [r1, r2, r3] / 7) :=
  ⟨by decide, C4_daily_avg_runrate [r1, r2, r3] t0 (by decide)⟩

/-- C4 counterexample: a single record dated 10 days after `today` is
counted by the code's daily_avg (100/7) although it is outside the
trailing 7 days ending today, whose spec-side run-rate is 0. -/
theorem C4_counterexample_future_record :
    (calculate_business_metrics t0 [rFuture]).map Metrics.daily_avg = some (100 / 7) ∧
    spec_trailing_window_sum t0 [rFuture] / 7 = 0 ∧ ((100 : ℚ) / 7) ≠ 0 := by
  refine ⟨?_, ?_, by norm_num⟩
  · simp +decide [calculate_business_metrics, metricsOf, recent_records,
      this_week_revenue, last_week_revenue, last_week_records,
      current_month_records, rFuture, t0]
  · simp +decide [spec_trailing_window_sum, rFuture, t0]

/-- C5 (amended): `growth_rate` is the percentage change of the code's
trailing-window revenue (dated on or after `today - 7`, no upper bound)
versus the prior 7-day window when the latter is positive, and 0
otherwise — in particular 0 whenever last-week revenue is 0. -/
theorem C5_growth_rate_guard (data : List Record) (today : Date) (h : data ≠ []) :
    ∃ m, calculate_business_metrics today data = some m ∧
      (last_week_revenue today data = 0 → m.growth_rate = 0) ∧
      (0 < last_week_revenue today data →
        m.growth_rate = (this_week_revenue today data - last_week_revenue today data) /
          last_week_revenue today data * 100) := by
  refine ⟨metricsOf today data, calculate_business_metrics_eq h, ?_, ?_⟩
  · intro h0
    show (if 0 < last_week_revenue today data
        then (this_week_revenue today data - last_week_revenue today data) /
          last_week_revenue today data * 100 else 0) = 0
    rw [if_neg]
    rw [h0]
    exact lt_irrefl 0
  · intro hpos
    show (if 0 < last_week_revenue today data
        then (this_week_revenue today data - last_week_revenue today data) /
          last_week_revenue today data * 100 else 0) = _
    rw [if_pos hpos]

/-- C5 witness: a single record dated today gives last-week revenue 0,
this-week revenue 150 and growth_rate 0 (the zero-denominator guard). -/
theorem C5_growth_rate_guard_witness :
    ([rNow] ≠ []) ∧ last_week_revenue t0 [rNow] = 0 ∧
    this_week_revenue t0 [rNow] = 150 ∧
    (∃ m, calculate_business_metrics t0 [rNow] = some m ∧
      (last_week_revenue t0 [rNow] = 0 → m.growth_rate = 0) ∧
      (0 < last_week_revenue t0 [rNow] →
        m.growth_rate = (this_week_revenue t0 [rNow] - last_week_revenue t0 [rNow]) /
          last_week_revenue t0 [rNow] * 100)) :=
  ⟨by decide,
   by simp +decide [last_week_revenue, last_week_records, rNow, t0],
   by simp +decide [this_week_revenue, recent_records, rNow, t0],
   C5_growth_rate_guard [rNow] t0 (by decide)⟩

/-- C5 counterexample: a future-dated record plus a prior-week record
make the code's growth_rate 0 (future revenue counts as this-week),
while the spec's trailing-window growth rate is -100. -/
theorem C5_counterexample_future_record :
    (calculate_business_metrics t0 [rFuture, rPast]).map Metrics.growth_rate = some 0 ∧
    spec_growth_rate t0 [rFuture, rPast] = -100 ∧ ((0 : ℚ) ≠ -100) := by
  refine ⟨?_, ?_, by norm_num⟩
  · simp +decide [calculate_business_metrics, metricsOf, recent_records,
      this_week_revenue, last_week_revenue, last_week_records,
      current_month_records, rFuture, rPast, t0]
  · simp +decide [spec_growth_rate, spec_trailing_window_sum, last_week_revenue,
      last_week_records, rFuture, rPast, t0]

/-- C6: `monthly_revenue` and `monthly_transactions` aggregate exactly
the records whose month-of-year number equals today's month number,
regardless of year. -/
theorem C6_monthly_by_month_number (data : List Record) (today : Date) (h : data ≠ []) :
    ∃ m, calculate_business_metrics today data = some m ∧
      m.monthly_revenue = ((data.filter (fun r =>
        decide (r.date.month = today.month))).map Record.total_amount).sum ∧
      m.monthly_transactions =
        (data.filter (fun r => decide (r.date.month = today.month))).length :=
  ⟨metricsOf today data, calculate_business_metrics_eq h, rfl, rfl⟩

/-- C6 witness: a January 2024 and a January 2023 record are both
aggregated when today is in January. -/
theorem C6_monthly_by_month_number_witness :
    ([r1, rJan2023] ≠ []) ∧
    (([r1, rJan2023].filter (fun r => decide (r.date.month = t0.month))).length = 2) ∧
    (∃ m, calculate_business_metrics t0 [r1, rJan2023] = some m ∧
      m.monthly_revenue = (([r1, rJan2023].filter (fun r =>
        decide (r.date.month = t0.month))).map Record.total_amount).sum ∧
      m.monthly_transactions =
        ([r1, rJan2023].filter (fun r => decide (r.date.month = t0.month))).length) :=
  ⟨by decide, by decide, C6_monthly_by_month_number [r1, rJan2023] t0 (by decide)⟩

/-- Tie row: seller "B", product "Saree", revenue 100 (appears first). -/
def rTieB : Record := ⟨d0101, "Saree", 100, 1, "B", 100⟩

/-- Tie row: seller "A", product "Shirt", revenue 100 (appears second). -/
def rTieA : Record := ⟨d0108, "Shirt", 100, 1, "A", 100⟩

/-- C9: `top_seller` is a maximiser of the summed revenue and, on ties,
the lexicographically smallest seller name (the first key of the sorted
grouping); likewise `top_product` for summed quantity.  Both are pure
functions of the record set, hence reproducible across repeated calls. -/
theorem C9_top_tie_break (data : List Record) (today : Date) (h : data ≠ []) :
    ∃ m, calculate_business_metrics today data = some m ∧
      m.top_seller ∈ data.map Record.seller ∧
      (∀ s ∈ data.map Record.seller,
        sellerRevenue data s ≤ sellerRevenue data m.top_seller) ∧
      (∀ s ∈ data.map Record.seller,
        sellerRevenue data s = sellerRevenue data m.top_seller → m.top_seller ≤ s) ∧
      m.top_product ∈ data.map Record.product_name ∧
      (∀ p ∈ data.map Record.product_name,
        productQty data p ≤ productQty data m.top_product) ∧
      (∀ p ∈ data.map Record.product_name,
        productQty data p = productQty data m.top_product → m.top_product ≤ p) := by
  have hmemS : ∀ x, x ∈ sellerKeys data ↔ x ∈ data.map Record.seller := by
    intro x
    rw [sellerKeys, (List.perm_insertionSort _ _).mem_iff, List.mem_dedup]
  have hmemP : ∀ x, x ∈ productKeys data ↔ x ∈ data.map Record.product_name := by
    intro x
    rw [productKeys, (List.perm_insertionSort _ _).mem_iff, List.mem_dedup]
  obtain ⟨a, l, rfl⟩ : ∃ a l, data = a :: l := by
    rcases data with _ | ⟨a, l⟩
    · exact absurd rfl h
    · exact ⟨a, l, rfl⟩
  have hneS : sellerKeys (a :: l) ≠ [] :=
    List.ne_nil_of_mem
      ((hmemS a.seller).2 (List.mem_map_of_mem _ (List.mem_cons_self a l)))
  have hneP : productKeys (a :: l) ≠ [] :=
    List.ne_nil_of_mem
      ((hmemP a.product_name).2 (List.mem_map_of_mem _ (List.mem_cons_self a l)))
  obtain ⟨ks, hks, hksmem, hksmax, hksmin⟩ :=
    idxmax_spec (K := sellerKeys (a :: l)) (sellerRevenue (a :: l))
      (List.sorted_insertionSort _ _) hneS
  obtain ⟨kp, hkp, hkpmem, hkpmax, hkpmin⟩ :=
    idxmax_spec (K := productKeys (a :: l)) (productQty (a :: l))
      (List.sorted_insertionSort _ _) hneP
  have htops : (metricsOf today (a :: l)).top_seller = ks := by
    show (idxmax (sellerKeys (a :: l)) (sellerRevenue (a :: l))).getD "N/A" = ks
    rw [hks]
    rfl
  have htopp : (metricsOf today (a :: l)).top_product = kp := by
    show (idxmax (productKeys (a :: l)) (productQty (a :: l))).getD "N/A" = kp
    rw [hkp]
    rfl
  refine ⟨metricsOf today (a :: l), calculate_business_metrics_eq h, ?_, ?_, ?_, ?_, ?_, ?_⟩
  · rw [htops]
    exact (hmemS ks).1 hksmem
  · rw [htops]
    exact fun s hs => hksmax s ((hmemS s).2 hs)
  · rw [htops]
    exact fun s hs heq => hksmin s ((hmemS s).2 hs) heq
  · rw [htopp]
    exact (hmemP kp).1 hkpmem
  · rw [htopp]
    exact fun p hp => hkpmax p ((hmemP p).2 hp)
  · rw [htopp]
    exact fun p hp heq => hkpmin p ((hmemP p).2 hp) heq

/-- C9 witness: two rows with tied seller revenue (and tied product
quantity); the lexicographically smaller seller "A" wins the tie even
though "B"'s row comes first. -/
theorem C9_top_tie_break_witness :
    ([rTieB, rTieA] ≠ []) ∧
    sellerRevenue [rTieB, rTieA] "A" = sellerRevenue [rTieB, rTieA] "B" ∧
    (calculate_business_metrics t0 [rTieB, rTieA]).map Metrics.top_seller = some "A" ∧
    (∃ m, calculate_business_metrics t0 [rTieB, rTieA] = some m ∧
      m.top_seller ∈ [rTieB, rTieA].map Record.seller ∧
      (∀ s ∈ [rTieB, rTieA].map Record.seller,
        sellerRevenue [rTieB, rTieA] s ≤ sellerRevenue [rTieB, rTieA] m.top_seller) ∧
      (∀ s ∈ [rTieB, rTieA].map Record.seller,
        sellerRevenue [rTieB, rTieA] s = sellerRevenue [rTieB, rTieA] m.top_seller →
          m.top_seller ≤ s) ∧
      m.top_product ∈ [rTieB, rTieA].map Record.product_name ∧
      (∀ p ∈ [rTieB, rTieA].map Record.product_name,
        productQty [rTieB, rTieA] p ≤ productQty [rTieB, rTieA] m.top_product) ∧
      (∀ p ∈ [rTieB, rTieA].map Record.product_name,
        productQty [rTieB, rTieA] p = productQty [rTieB, rTieA] m.top_product →
          m.top_product ≤ p)) :=
  ⟨by decide,
   by simp +decide [sellerRevenue, keySum, rTieB, rTieA],
   by simp +decide [calculate_business_metrics, metricsOf, sellerKeys, sellerRevenue,
     keySum, idxmax, List.insertionSort, List.orderedInsert, List.find?,
     rTieB, rTieA, d0101, d0108, t0],
   C9_top_tie_break [rTieB, rTieA] t0 (by decide)⟩
